import Mathlib

/-!
Shallow embedding of the Stavily plugin runtime (repository `Stavily/06-Plugins`):
the lifecycle state machine, the line-oriented command dispatcher, the
threshold/cooldown trigger detection of the two monitoring plugins
(`disk_space_monitor.py`, `memory_monitor.py`), and the action executors of the
two action plugins (`shell_command.py`, `email_notification.py`).

Modelling conventions, fixed for the whole file:
* Real-valued quantities of the source (float thresholds and percentages,
  `datetime` timestamps, `total_seconds()` durations) are modelled over `Int`.
  Every comparison and subtraction performed by the code is preserved exactly;
  no claim in scope depends on fractional values.
* External collaborators (psutil metric snapshots, the subprocess / SMTP action
  sources, `datetime.now()`, `os.uname()`) are inputs: each operation that
  consults them takes their observed value as an explicit argument.
* A raised Python exception that escapes a function is an `Except.error` carrying
  `str(e)`; functions that cannot raise return plain values.
* Python dicts keyed by strings (the cooldown table) are association lists whose
  lookup finds the most recent binding, matching dict read/overwrite semantics.
-/

/-! ### String helpers

Char-list implementations of the string operations the source uses
(`str.startswith`, `in` substring test, `str.lower`, `str.split('/')[-1]`,
`str.replace('/','_')`), kept executable so concrete runs reduce in the kernel.
-/

/-- `hasPre p l` is true iff char list `p` is a leading segment of `l`
(models Python `str.startswith`). -/
def hasPre : List Char → List Char → Bool
  | [], _ => true
  | _ :: _, [] => false
  | a :: p, b :: l => a = b && hasPre p l

/-- `hasSub p l` is true iff char list `p` occurs contiguously inside `l`
(models the Python `in` substring test). -/
def hasSub (p : List Char) : List Char → Bool
  | [] => p.isEmpty
  | b :: l => hasPre p (b :: l) || hasSub p l

/-- Substring test on strings: models Python `pat in hay`. -/
def strHasSub (hay pat : String) : Bool :=
  hasSub pat.data hay.data

/-- Models Python `hay.startswith(pre)`. -/
def strStarts (hay pre : String) : Bool :=
  hasPre pre.data hay.data

/-- ASCII lower-casing, models Python `str.lower()` on the ASCII command text. -/
def lowerStr (s : String) : String :=
  String.mk (s.data.map Char.toLower)

/-- Split a char list at `'/'` (models Python `str.split("/")`);
always returns a non-empty list of segments. -/
def splitOnSlash : List Char → List (List Char)
  | [] => [[]]
  | c :: rest =>
    if c = '/' then [] :: splitOnSlash rest
    else
      match splitOnSlash rest with
      | [] => [[c]]
      | t :: ts => (c :: t) :: ts

/-- Models Python `s.split("/")[-1]` — the basename used to identify the main
executable of a shell command. -/
def baseName (s : String) : String :=
  String.mk ((splitOnSlash s.data).getLastD [])

/-- Models Python `s.replace("/", "_")` as used to build disk event ids. -/
def underscoreSlashes (s : String) : String :=
  String.mk (s.data.map (fun c => if c = '/' then '_' else c))

deriving instance DecidableEq for Except

/-! ### Cooldown table

`self.last_alert_time` is a Python dict from alert key to last-alert timestamp.
-/

/-- The cooldown table: alert key → timestamp of the last emitted alert. -/
def CooldownTable : Type := List (String × Int)

instance : DecidableEq CooldownTable := by
  unfold CooldownTable
  infer_instance

/-- Dict read: the value bound to `key`, if present (models `key in dict` /
`dict[key]`). -/
def lookupT : CooldownTable → String → Option Int
  | [], _ => none
  | (k, v) :: rest, key => if key = k then some v else lookupT rest key

/-- Dict write `dict[key] = v`: later bindings shadow earlier ones. -/
def tset (key : String) (v : Int) (t : CooldownTable) : CooldownTable :=
  (key, v) :: t

/-- `_should_alert` of both monitor plugins: alert when the key was never
alerted, or when `now - last ≥ cooldown` seconds have elapsed
(`disk_space_monitor.py` lines 306-312, `memory_monitor.py` lines 245-251). -/
def shouldAlert (tbl : CooldownTable) (cooldown : Int) (key : String) (now : Int) : Bool :=
  match lookupT tbl key with
  | none => true
  | some t => decide (cooldown ≤ now - t)

/-! ### Disk space monitor (`disk_space_monitor.py`) -/

/-- One entry of the `_get_disk_info()` metric snapshot: the per-filesystem
dict built from psutil (lines 284-295). The snapshot itself is an external
input to `detect_triggers` and `get_health`. -/
structure Filesystem where
  device : String
  mountpoint : String
  fstype : String
  total : Int
  used : Int
  free : Int
  percent : Int
  total_gb : Int
  used_gb : Int
  free_gb : Int
deriving DecidableEq

/-- The typed view of the configuration mapping accepted by
`DiskSpaceMonitorPlugin.initialize`; `none` models an absent key, numeric
values are already numbers (the `float()` / `int()` coercions cannot fail). -/
structure DiskConfig where
  threshold : Option Int
  critical_threshold : Option Int
  interval : Option Int
  alert_cooldown : Option Int
  monitored_paths : Option (List String)
  exclude_types : Option (List String)
deriving DecidableEq

/-- The mutable fields of a `DiskSpaceMonitorPlugin` instance (`__init__`,
lines 20-32). -/
structure DiskState where
  config : DiskConfig
  threshold : Int
  critical_threshold : Int
  interval : Int
  alert_cooldown : Int
  monitored_paths : List String
  exclude_types : List String
  running : Bool
  status : String
  start_time : Option Int
  last_alert_time : CooldownTable
deriving DecidableEq

/-- The freshly constructed plugin instance (`__init__`). -/
def diskInit : DiskState :=
  { config := ⟨none, none, none, none, none, none⟩
    threshold := 85
    critical_threshold := 95
    interval := 300
    alert_cooldown := 600
    monitored_paths := [("/"), ("/var"), ("/tmp"), ("/home")]
    exclude_types := [("tmpfs"), ("devtmpfs"), ("proc"), ("sysfs")]
    running := false
    status := ("stopped")
    start_time := none
    last_alert_time := [] }

/-- The assignment prefix of `DiskSpaceMonitorPlugin.initialize` (lines 66-76):
every config-derived field is overwritten before any validation check runs. -/
def diskAssign (s : DiskState) (c : DiskConfig) : DiskState :=
  { s with
    config := c
    threshold := c.threshold.getD 85
    critical_threshold := c.critical_threshold.getD 95
    interval := c.interval.getD 300
    alert_cooldown := c.alert_cooldown.getD 600
    monitored_paths := c.monitored_paths.getD s.monitored_paths
    exclude_types := c.exclude_types.getD s.exclude_types }

/-- `DiskSpaceMonitorPlugin.initialize` (lines 63-95): assignments, then the
four validation checks in source order; a failed check is a raised
`ValueError` caught by the handler that sets `status = "error"` and returns
`False`. -/
def diskInitializeCfg (s : DiskState) (c : DiskConfig) : Bool × DiskState :=
  let s1 := diskAssign s c
  if ¬ (0 ≤ s1.threshold ∧ s1.threshold ≤ 100) then
    (false, { s1 with status := ("error") })
  else if ¬ (0 ≤ s1.critical_threshold ∧ s1.critical_threshold ≤ 100) then
    (false, { s1 with status := ("error") })
  else if s1.threshold ≥ s1.critical_threshold then
    (false, { s1 with status := ("error") })
  else if s1.interval < 1 then
    (false, { s1 with status := ("error") })
  else
    (true, { s1 with status := ("initialized") })

/-- `DiskSpaceMonitorPlugin.start` (lines 97-113): a no-op returning `True`
when already running, otherwise sets the running flag, the status and the
start timestamp; nothing in the body can raise. -/
def diskStart (now : Int) (s : DiskState) : Bool × DiskState :=
  if s.running then (true, s)
  else (true, { s with running := true, status := ("running"), start_time := some now })

/-- `DiskSpaceMonitorPlugin.stop` (lines 115-125): unconditionally clears the
running flag and sets `status = "stopped"`. -/
def diskStop (s : DiskState) : Bool × DiskState :=
  (true, { s with running := false, status := ("stopped") })

/-- The health report of `DiskSpaceMonitorPlugin.get_health` (lines 131-154). -/
structure DiskHealth where
  status : String
  message : String
  last_check : Int
  uptime : Int
  error_count : Int
  monitored_filesystems : Nat
  threshold : Int
  critical_threshold : Int
  highest_usage : Int
  filesystems : List Filesystem
deriving DecidableEq

/-- `DiskSpaceMonitorPlugin.get_health`: a pure read over the state, the
current metric snapshot and the clock; `status` is `"healthy"` iff the
`running` flag is set. -/
def diskGetHealth (s : DiskState) (info : List Filesystem) (now : Int) : DiskHealth :=
  { status := if s.running then ("healthy") else ("unhealthy")
    message := if s.running then ("Plugin is running normally") else ("Plugin is not running")
    last_check := now
    uptime := match s.start_time with
      | some t => now - t
      | none => 0
    error_count := 0
    monitored_filesystems := info.length
    threshold := s.threshold
    critical_threshold := s.critical_threshold
    highest_usage := (info.map (fun fs => fs.percent)).foldr max 0
    filesystems := info }

/-- A disk trigger event as built by `_create_disk_event` (lines 314-341). -/
structure DiskEvent where
  id : String
  type : String
  source : String
  timestamp : Int
  alert_level : String
  filesystem : Filesystem
  threshold : Int
  usage_percent : Int
  free_space_gb : Int
  severity : String
  tags : List String
deriving DecidableEq

/-- `_create_disk_event`: the event payload for one alerting filesystem. -/
def mkDiskEvent (fs : Filesystem) (alert_level : String) (threshold : Int) (now : Int) : DiskEvent :=
  { id := ("disk-") ++ alert_level ++ ("-") ++ underscoreSlashes fs.mountpoint ++ ("-") ++ toString now
    type := ("disk.space.") ++ alert_level
    source := ("disk-space-monitor")
    timestamp := now
    alert_level := alert_level
    filesystem := fs
    threshold := threshold
    usage_percent := fs.percent
    free_space_gb := fs.free_gb
    severity := if alert_level = ("critical") then ("critical") else ("high")
    tags := [("system"), ("disk"), ("storage"), ("filesystem"), alert_level] }

/-- The cooldown key `f"{mountpoint}_{alert_level}"` of an emitted event. -/
def diskEventKey (e : DiskEvent) : String :=
  e.filesystem.mountpoint ++ ("_") ++ e.alert_level

/-- The scan loop of `detect_triggers` (lines 165-187): classify each
filesystem against the two thresholds, skip those below `threshold`, and emit
on the first non-suppressed alert, recording `now` under its key. -/
def diskScan (s : DiskState) (now : Int) : List Filesystem → Option DiskEvent × DiskState
  | [] => (none, s)
  | fs :: rest =>
    if fs.percent ≥ s.critical_threshold then
      if shouldAlert s.last_alert_time s.alert_cooldown (fs.mountpoint ++ ("_") ++ ("critical")) now then
        (some (mkDiskEvent fs ("critical") s.critical_threshold now),
         { s with last_alert_time := tset (fs.mountpoint ++ ("_") ++ ("critical")) now s.last_alert_time })
      else diskScan s now rest
    else if fs.percent ≥ s.threshold then
      if shouldAlert s.last_alert_time s.alert_cooldown (fs.mountpoint ++ ("_") ++ ("warning")) now then
        (some (mkDiskEvent fs ("warning") s.threshold now),
         { s with last_alert_time := tset (fs.mountpoint ++ ("_") ++ ("warning")) now s.last_alert_time })
      else diskScan s now rest
    else diskScan s now rest

/-- `DiskSpaceMonitorPlugin.detect_triggers` (lines 156-191): returns no event
when not running, otherwise scans the current snapshot; at most one event is
produced per call (the function returns at the first emission). -/
def diskDetect (s : DiskState) (info : List Filesystem) (now : Int) : Option DiskEvent × DiskState :=
  if s.running then diskScan s now info
  else (none, s)

/-- States of a `DiskSpaceMonitorPlugin` instance reachable from construction
through the operations the dispatcher can invoke (pure reads omitted: they do
not change the state). -/
inductive DiskReach : DiskState → Prop
  | init : DiskReach diskInit
  | step_initialize (s : DiskState) (c : DiskConfig) :
      DiskReach s → DiskReach (diskInitializeCfg s c).2
  | step_start (s : DiskState) (t : Int) :
      DiskReach s → DiskReach (diskStart t s).2
  | step_stop (s : DiskState) :
      DiskReach s → DiskReach (diskStop s).2
  | step_detect (s : DiskState) (info : List Filesystem) (t : Int) :
      DiskReach s → DiskReach (diskDetect s info t).2

/-! ### Memory monitor (`memory_monitor.py`) -/

/-- The `_get_memory_info()` snapshot (lines 229-243), an external input. -/
structure MemInfo where
  memory_percent : Int
  total_memory : Int
  available_memory : Int
  used_memory : Int
  swap_percent : Int
  total_swap : Int
  used_swap : Int
  free_swap : Int
deriving DecidableEq

/-- The typed view of the configuration mapping accepted by
`MemoryMonitorPlugin.initialize`. -/
structure MemConfig where
  memory_threshold : Option Int
  swap_threshold : Option Int
  interval : Option Int
  alert_cooldown : Option Int
deriving DecidableEq

/-- The mutable fields of a `MemoryMonitorPlugin` instance (`__init__`,
lines 20-30). -/
structure MemState where
  config : MemConfig
  memory_threshold : Int
  swap_threshold : Int
  interval : Int
  alert_cooldown : Int
  running : Bool
  status : String
  start_time : Option Int
  last_alert_time : CooldownTable
deriving DecidableEq

/-- The freshly constructed memory monitor instance. -/
def memInit : MemState :=
  { config := ⟨none, none, none, none⟩
    memory_threshold := 85
    swap_threshold := 90
    interval := 60
    alert_cooldown := 300
    running := false
    status := ("stopped")
    start_time := none
    last_alert_time := [] }

/-- The assignment prefix of `MemoryMonitorPlugin.initialize` (lines 64-68),
executed before any validation check. -/
def memAssign (s : MemState) (c : MemConfig) : MemState :=
  { s with
    config := c
    memory_threshold := c.memory_threshold.getD 85
    swap_threshold := c.swap_threshold.getD 90
    interval := c.interval.getD 60
    alert_cooldown := c.alert_cooldown.getD 300 }

/-- `MemoryMonitorPlugin.initialize` (lines 61-85): assignments, then the
three validation checks in source order. -/
def memInitializeCfg (s : MemState) (c : MemConfig) : Bool × MemState :=
  let s1 := memAssign s c
  if ¬ (0 ≤ s1.memory_threshold ∧ s1.memory_threshold ≤ 100) then
    (false, { s1 with status := ("error") })
  else if ¬ (0 ≤ s1.swap_threshold ∧ s1.swap_threshold ≤ 100) then
    (false, { s1 with status := ("error") })
  else if s1.interval < 1 then
    (false, { s1 with status := ("error") })
  else
    (true, { s1 with status := ("initialized") })

/-- `MemoryMonitorPlugin.start` (lines 87-103), identical in shape to the disk
monitor's. -/
def memStart (now : Int) (s : MemState) : Bool × MemState :=
  if s.running then (true, s)
  else (true, { s with running := true, status := ("running"), start_time := some now })

/-- `MemoryMonitorPlugin.stop` (lines 105-115). -/
def memStop (s : MemState) : Bool × MemState :=
  (true, { s with running := false, status := ("stopped") })

/-- A memory trigger event as built by `_create_memory_event` (lines 253-291). -/
structure MemEvent where
  id : String
  type : String
  source : String
  timestamp : Int
  alert_type : String
  usage_percent : Int
  threshold : Int
  severity : String
  tags : List String
deriving DecidableEq

/-- `_create_memory_event`: usage, threshold, event type and severity depend on
whether the alert is for RAM or swap. -/
def mkMemEvent (s : MemState) (info : MemInfo) (alert_type : String) (now : Int) : MemEvent :=
  if alert_type = ("memory") then
    { id := ("memory-") ++ alert_type ++ ("-") ++ toString now
      type := ("memory.high")
      source := ("memory-monitor")
      timestamp := now
      alert_type := alert_type
      usage_percent := info.memory_percent
      threshold := s.memory_threshold
      severity :=
        if info.memory_percent > 95 then ("critical")
        else if info.memory_percent > 90 then ("high")
        else ("medium")
      tags := [("system"), ("memory"), alert_type, ("alert")] }
  else
    { id := ("memory-") ++ alert_type ++ ("-") ++ toString now
      type := ("swap.high")
      source := ("memory-monitor")
      timestamp := now
      alert_type := alert_type
      usage_percent := info.swap_percent
      threshold := s.swap_threshold
      severity := if info.swap_percent > 95 then ("critical") else ("high")
      tags := [("system"), ("memory"), alert_type, ("alert")] }

/-- The cooldown key of a memory event: the bare alert type (`"memory"` or
`"swap"`). -/
def memEventKey (e : MemEvent) : String :=
  e.alert_type

/-- `MemoryMonitorPlugin.detect_triggers` (lines 147-174): check RAM first;
when RAM is over threshold but suppressed by cooldown, control falls through to
the swap check, exactly like the nested `if` structure of the source. -/
def memDetect (s : MemState) (info : MemInfo) (now : Int) : Option MemEvent × MemState :=
  if s.running then
    let swapCheck : Option MemEvent × MemState :=
      if info.swap_percent > s.swap_threshold then
        if shouldAlert s.last_alert_time s.alert_cooldown ("swap") now then
          (some (mkMemEvent s info ("swap") now),
           { s with last_alert_time := tset ("swap") now s.last_alert_time })
        else (none, s)
      else (none, s)
    if info.memory_percent > s.memory_threshold then
      if shouldAlert s.last_alert_time s.alert_cooldown ("memory") now then
        (some (mkMemEvent s info ("memory") now),
         { s with last_alert_time := tset ("memory") now s.last_alert_time })
      else swapCheck
    else swapCheck
  else (none, s)

/-! ### Shell command plugin (`shell_command.py`) -/

/-- Lexer mode of the `shlex.split` state machine: outside quotes, inside a
single-quoted section, or inside a double-quoted section. -/
inductive LexMode
  | norm
  | single
  | double
deriving DecidableEq

/-- Tokenizer state machine for POSIX `shlex.split` as used by
`_validate_command`: whitespace-separated words, single quotes literal, double
quotes with backslash escaping only `"` and `\`, bare backslash escaping the
next character; an unterminated quote or trailing escape raises `ValueError`
whose message is carried in the `Except.error`. -/
def shlexGo : LexMode → Bool → List Char → List String → List Char → Except String (List String)
  | .norm, inw, cur, toks, [] =>
    .ok (if inw then toks ++ [String.mk cur] else toks)
  | .norm, _, _, _, '\\' :: [] =>
    .error ("No escaped character")
  | .norm, _, cur, toks, '\\' :: d :: rest =>
    shlexGo .norm true (cur ++ [d]) toks rest
  | .norm, inw, cur, toks, c :: rest =>
    if c = ' ' ∨ c = '\t' ∨ c = '\r' ∨ c = '\n' then
      shlexGo .norm false [] (if inw then toks ++ [String.mk cur] else toks) rest
    else if c = '\'' then shlexGo .single true cur toks rest
    else if c = '"' then shlexGo .double true cur toks rest
    else shlexGo .norm true (cur ++ [c]) toks rest
  | .single, _, _, _, [] => .error ("No closing quotation")
  | .single, inw, cur, toks, c :: rest =>
    if c = '\'' then shlexGo .norm inw cur toks rest
    else shlexGo .single inw (cur ++ [c]) toks rest
  | .double, _, _, _, [] => .error ("No closing quotation")
  | .double, _, _, _, '\\' :: [] => .error ("No closing quotation")
  | .double, inw, cur, toks, '\\' :: d :: rest =>
    if d = '"' ∨ d = '\\' then shlexGo .double inw (cur ++ [d]) toks rest
    else shlexGo .double inw (cur ++ ['\\', d]) toks rest
  | .double, inw, cur, toks, c :: rest =>
    if c = '"' then shlexGo .norm inw cur toks rest
    else shlexGo .double inw (cur ++ [c]) toks rest

/-- `shlex.split(command)` (posix mode), returning the token list or the
`ValueError` message. -/
def shlexSplit (command : String) : Except String (List String) :=
  shlexGo .norm false [] [] command.data

/-- The typed view of the configuration mapping accepted by
`ShellCommandPlugin.initialize` (lines 62-92). -/
structure ShellConfig where
  allowed_commands : Option (List String)
  blocked_commands : Option (List String)
  allowed_paths : Option (List String)
  timeout : Option Int
  max_output_size : Option Int
deriving DecidableEq

/-- The mutable fields of a `ShellCommandPlugin` instance (`__init__`,
lines 20-31); `demo_mode` is fixed at construction from the environment. -/
structure ShellState where
  config : ShellConfig
  allowed_commands : List String
  blocked_commands : List String
  allowed_paths : List String
  timeout : Int
  max_output_size : Int
  running : Bool
  status : String
  start_time : Option Int
  demo_mode : Bool
deriving DecidableEq

/-- The freshly constructed shell plugin instance. -/
def shellInit (demo : Bool) : ShellState :=
  { config := ⟨none, none, none, none, none⟩
    allowed_commands := []
    blocked_commands := [("rm"), ("rmdir"), ("dd"), ("mkfs"), ("fdisk"), ("format")]
    allowed_paths := [("/tmp"), ("/var/tmp")]
    timeout := 300
    max_output_size := 1048576
    running := false
    status := ("stopped")
    start_time := none
    demo_mode := demo }

/-- The assignment prefix of `ShellCommandPlugin.initialize` (lines 65-77):
restriction lists are replaced only when present in the config, the limits are
re-read with their defaults. -/
def shellAssign (s : ShellState) (c : ShellConfig) : ShellState :=
  { s with
    config := c
    allowed_commands := c.allowed_commands.getD s.allowed_commands
    blocked_commands := c.blocked_commands.getD s.blocked_commands
    allowed_paths := c.allowed_paths.getD s.allowed_paths
    timeout := c.timeout.getD 300
    max_output_size := c.max_output_size.getD 1048576 }

/-- `ShellCommandPlugin.initialize` (lines 62-92): assignments, then the two
positivity checks. -/
def shellInitializeCfg (s : ShellState) (c : ShellConfig) : Bool × ShellState :=
  let s1 := shellAssign s c
  if s1.timeout ≤ 0 then (false, { s1 with status := ("error") })
  else if s1.max_output_size ≤ 0 then (false, { s1 with status := ("error") })
  else (true, { s1 with status := ("initialized") })

/-- `ShellCommandPlugin.start` (lines 94-110). -/
def shellStart (now : Int) (s : ShellState) : Bool × ShellState :=
  if s.running then (true, s)
  else (true, { s with running := true, status := ("running"), start_time := some now })

/-- `ShellCommandPlugin.stop` (lines 112-122). -/
def shellStop (s : ShellState) : Bool × ShellState :=
  (true, { s with running := false, status := ("stopped") })

/-- The health report of `ShellCommandPlugin.get_health` (lines 128-149). -/
structure ShellHealth where
  status : String
  message : String
  last_check : Int
  uptime : Int
  error_count : Int
  demo_mode : Bool
  timeout : Int
  max_output_size : Int
  allowed_commands_count : Nat
  blocked_commands_count : Nat
deriving DecidableEq

/-- `ShellCommandPlugin.get_health`: a pure read; `status` is `"healthy"` iff
the `running` flag is set. -/
def shellGetHealth (s : ShellState) (now : Int) : ShellHealth :=
  { status := if s.running then ("healthy") else ("unhealthy")
    message := if s.running then ("Plugin is running normally") else ("Plugin is not running")
    last_check := now
    uptime := match s.start_time with
      | some t => now - t
      | none => 0
    error_count := 0
    demo_mode := s.demo_mode
    timeout := s.timeout
    max_output_size := s.max_output_size
    allowed_commands_count := s.allowed_commands.length
    blocked_commands_count := s.blocked_commands.length }

/-- The outcome of `_validate_command`: either cleared for execution, or
rejected with the human-readable error string the source builds. -/
inductive VResult
  | valid
  | invalid (error : String)
deriving DecidableEq

/-- The fixed list of dangerous substrings of `_validate_command` (line 338). -/
def dangerousPatterns : List String :=
  [("rm -rf"), (":()\x7b :|:& \x7d;:"), ("chmod 777"), ("chown root")]

/-- `ShellCommandPlugin._validate_command` (lines 310-346): tokenize, take the
basename of the first token, then the blocked set, the optional allow-list,
the working-directory prefixes, and finally the dangerous-substring scan over
the lower-cased raw command, in source order; the first failing check wins. -/
def validateCommand (s : ShellState) (command working_dir : String) : VResult :=
  match shlexSplit command with
  | .error e => .invalid (("Invalid command syntax: ") ++ e)
  | .ok [] => .invalid ("Empty command")
  | .ok (t :: _) =>
    let main_command := baseName t
    if main_command ∈ s.blocked_commands then
      .invalid (("Command \x27") ++ main_command ++ ("\x27 is blocked for security"))
    else if s.allowed_commands ≠ [] ∧ main_command ∉ s.allowed_commands then
      .invalid (("Command \x27") ++ main_command ++ ("\x27 is not in allowed list"))
    else if s.allowed_paths ≠ [] ∧ ¬ s.allowed_paths.any (fun p => strStarts working_dir p) then
      .invalid (("Working directory \x27") ++ working_dir ++ ("\x27 is not allowed"))
    else
      match dangerousPatterns.find? (fun p => strHasSub (lowerStr command) p) with
      | some p => .invalid (("Command contains dangerous pattern: ") ++ p)
      | none => .valid

/-- The `parameters` mapping of a shell action request (lines 173-177);
`none` models an absent key, defaults are applied at extraction. -/
structure ShellParams where
  command : Option String
  working_dir : Option String
  env_vars : Option (List (String × String))
  input : Option String
  timeout : Option Int
deriving DecidableEq

/-- An `ActionRequest` as consumed by `execute_action`: the `id` key may be
absent (its access then raises `KeyError`), `parameters` defaults to the empty
mapping. -/
structure ActionRequest (P : Type) where
  id : Option String
  parameters : Option P
deriving DecidableEq

/-- The empty shell `parameters` mapping. -/
def defaultShellParams : ShellParams := ⟨none, none, none, none, none⟩

/-- The empty shell action request (`command.get("action_request", {})`). -/
def defaultShellRequest : ActionRequest ShellParams := ⟨none, none⟩

/-- The dict returned by the shell Action Source (`_execute_command` /
`_simulate_command_execution`): `success`, the captured process outcome fields,
and the `error` string read on failure. -/
structure ExecOutcome where
  success : Bool
  return_code : Option Int
  stdout : Option String
  stderr : Option String
  execution_time : Option Int
  error : String
deriving DecidableEq

/-- The `data` mapping of a shell `ActionResult`: the completed branch carries
the full outcome (lines 196-204), the failed branch carries the partial
outcome without `working_dir`, `execution_time` or `demo_mode`
(lines 211-216). -/
structure ShellData where
  command : String
  working_dir : Option String
  return_code : Option Int
  stdout : Option String
  stderr : Option String
  execution_time : Option Int
  demo_mode : Option Bool
deriving DecidableEq

/-- The `metadata` mapping of an `ActionResult`; `_create_error_result` omits
`execution_host`. -/
structure ResultMeta where
  plugin_id : String
  plugin_version : String
  execution_host : Option String
deriving DecidableEq

/-- An `ActionResult` as returned by `execute_action` of either action plugin;
every returned result carries `started_at`, `completed_at` and `duration`. -/
structure ActionResult (D : Type) where
  id : String
  status : String
  error : Option String
  data : Option D
  started_at : Int
  completed_at : Int
  duration : Int
  metadata : ResultMeta
deriving DecidableEq

/-- `_create_error_result` of both action plugins: a failed result with the
given error, no data, and metadata without `execution_host`. -/
def mkErrorResult (D : Type) (pid i err : String) (t0 t1 : Int) : ActionResult D :=
  { id := i
    status := ("failed")
    error := some err
    data := none
    started_at := t0
    completed_at := t1
    duration := t1 - t0
    metadata := { plugin_id := pid, plugin_version := ("1.0.0"), execution_host := none } }

/-- The external observations one `execute_action` call makes: the entry and
finalization clock reads, the host name, and the Action Source outcome the
call would receive if it dispatches. -/
structure ShellEnv where
  t0 : Int
  t1 : Int
  host : String
  exec : ExecOutcome
deriving DecidableEq

/-- str(KeyError(\x27id\x27)) — the message of the exception raised when the
request mapping lacks the `id` key. -/
def keyErrorId : String := ("\x27id\x27")

/-- `ShellCommandPlugin.execute_action` (lines 151-233). The not-running
fail-fast and the `action_id` read both evaluate `action_request["id"]`
outside the `try` block, so a missing `id` raises (modelled as
`Except.error`). Otherwise the command is extracted with its defaults,
validated, and only on successful validation is the Action Source outcome
consulted; the outcome is wrapped as a completed result with data, or a
failed result with both the error and the partial data. -/
def shellExecuteAction (s : ShellState) (req : ActionRequest ShellParams) (env : ShellEnv) :
    Except String (ActionResult ShellData) :=
  if s.running then
    match req.id with
    | none => .error keyErrorId
    | some action_id =>
      let params := req.parameters.getD defaultShellParams
      let command := params.command.getD ("")
      let working_dir := params.working_dir.getD ("/tmp")
      if command = ("") then
        .ok (mkErrorResult ShellData ("shell-command") action_id ("Command parameter is required") env.t0 env.t1)
      else
        match validateCommand s command working_dir with
        | .invalid e =>
          .ok (mkErrorResult ShellData ("shell-command") action_id e env.t0 env.t1)
        | .valid =>
          if env.exec.success then
            .ok { id := action_id
                  status := ("completed")
                  error := none
                  data := some { command := command
                                 working_dir := some working_dir
                                 return_code := env.exec.return_code
                                 stdout := env.exec.stdout
                                 stderr := env.exec.stderr
                                 execution_time := env.exec.execution_time
                                 demo_mode := some s.demo_mode }
                  started_at := env.t0
                  completed_at := env.t1
                  duration := env.t1 - env.t0
                  metadata := ⟨("shell-command"), ("1.0.0"), some env.host⟩ }
          else
            .ok { id := action_id
                  status := ("failed")
                  error := some env.exec.error
                  data := some { command := command
                                 working_dir := none
                                 return_code := env.exec.return_code
                                 stdout := some (env.exec.stdout.getD (""))
                                 stderr := some (env.exec.stderr.getD (""))
                                 execution_time := none
                                 demo_mode := none }
                  started_at := env.t0
                  completed_at := env.t1
                  duration := env.t1 - env.t0
                  metadata := ⟨("shell-command"), ("1.0.0"), some env.host⟩ }
  else
    match req.id with
    | none => .error keyErrorId
    | some i =>
      .ok (mkErrorResult ShellData ("shell-command") i ("Plugin is not running") env.t0 env.t1)

/-! ### Email notification plugin (`email_notification.py`) -/

/-- The typed view of the configuration mapping accepted by
`EmailNotificationPlugin.initialize` (lines 75-100). -/
structure EmailConfig where
  smtp_server : Option String
  smtp_port : Option Int
  username : Option String
  password : Option String
  from_email : Option String
  use_tls : Option Bool
deriving DecidableEq

/-- The mutable fields of an `EmailNotificationPlugin` instance (`__init__`,
lines 32-44). -/
structure EmailState where
  config : EmailConfig
  smtp_server : String
  smtp_port : Int
  username : String
  password : String
  from_email : String
  use_tls : Bool
  running : Bool
  status : String
  start_time : Option Int
  demo_mode : Bool
deriving DecidableEq

/-- The freshly constructed email plugin instance. -/
def emailInit (demo : Bool) : EmailState :=
  { config := ⟨none, none, none, none, none, none⟩
    smtp_server := ("")
    smtp_port := 587
    username := ("")
    password := ("")
    from_email := ("")
    use_tls := true
    running := false
    status := ("stopped")
    start_time := none
    demo_mode := demo }

/-- The assignment prefix of `EmailNotificationPlugin.initialize`
(lines 78-86); `from_email` defaults to the username just assigned. -/
def emailAssign (s : EmailState) (c : EmailConfig) : EmailState :=
  { s with
    config := c
    smtp_server := c.smtp_server.getD ("")
    smtp_port := c.smtp_port.getD 587
    username := c.username.getD ("")
    password := c.password.getD ("")
    from_email := c.from_email.getD (c.username.getD (""))
    use_tls := c.use_tls.getD true }

/-- `EmailNotificationPlugin.initialize` (lines 75-100): in non-demo mode the
four SMTP fields must all be non-empty (`all([...])` over the assigned
values); demo mode accepts anything. -/
def emailInitializeCfg (s : EmailState) (c : EmailConfig) : Bool × EmailState :=
  let s1 := emailAssign s c
  if ¬ s1.demo_mode ∧
     ¬ (s1.smtp_server ≠ ("") ∧ s1.username ≠ ("") ∧ s1.password ≠ ("") ∧ s1.from_email ≠ ("")) then
    (false, { s1 with status := ("error") })
  else
    (true, { s1 with status := ("initialized") })

/-- `EmailNotificationPlugin.start` (lines 102-118). -/
def emailStart (now : Int) (s : EmailState) : Bool × EmailState :=
  if s.running then (true, s)
  else (true, { s with running := true, status := ("running"), start_time := some now })

/-- `EmailNotificationPlugin.stop` (lines 120-130). -/
def emailStop (s : EmailState) : Bool × EmailState :=
  (true, { s with running := false, status := ("stopped") })

/-- The `parameters` mapping of an email action request (lines 180-186).
A scalar string recipient is modelled as its normalized singleton list (the
`isinstance` coercions of lines 192-197); the `"to"` key is named `to_emails`
here because `to` is reserved. -/
structure EmailParams where
  to_emails : Option (List String)
  cc : Option (List String)
  bcc : Option (List String)
  subject : Option String
  body : Option String
  html_body : Option String
  attachments : Option (List String)
deriving DecidableEq

/-- The empty email `parameters` mapping. -/
def defaultEmailParams : EmailParams := ⟨none, none, none, none, none, none, none⟩

/-- The empty email action request. -/
def defaultEmailRequest : ActionRequest EmailParams := ⟨none, none⟩

/-- The dict returned by the email Action Source (`_send_email` /
`_simulate_email_send`): `success`, the optional message id, and the `error`
string read on failure. -/
structure EmailOutcome where
  success : Bool
  message_id : Option String
  error : String
deriving DecidableEq

/-- The `data` mapping of an email `ActionResult`: the completed branch
carries recipients, cc, bcc, subject, message id, attachment count and demo
flag (lines 206-217); the failed branch carries only recipients and subject
(lines 220-227). -/
structure EmailData where
  recipients : List String
  cc : Option (List String)
  bcc : Option (List String)
  subject : String
  message_id : Option String
  attachments_count : Option Nat
  demo_mode : Option Bool
deriving DecidableEq

/-- The external observations one email `execute_action` call makes. -/
structure EmailEnv where
  t0 : Int
  t1 : Int
  host : String
  send : EmailOutcome
deriving DecidableEq

/-- `EmailNotificationPlugin.execute_action` (lines 158-243): the same shape
as the shell executor — `action_request["id"]` is read outside the `try`
block (raises on a missing key, also on the not-running fail-fast path), an
empty recipient list is rejected with a failed result, and the Action Source
outcome is wrapped as completed-with-data or failed-with-error-and-data. -/
def emailExecuteAction (s : EmailState) (req : ActionRequest EmailParams) (env : EmailEnv) :
    Except String (ActionResult EmailData) :=
  if s.running then
    match req.id with
    | none => .error keyErrorId
    | some action_id =>
      let params := req.parameters.getD defaultEmailParams
      let to_emails := params.to_emails.getD []
      let cc_emails := params.cc.getD []
      let bcc_emails := params.bcc.getD []
      let subject := params.subject.getD ("Stavily Notification")
      let attachments := params.attachments.getD []
      if to_emails = [] then
        .ok (mkErrorResult EmailData ("email-notification") action_id
              ("At least one recipient email is required") env.t0 env.t1)
      else if env.send.success then
        .ok { id := action_id
              status := ("completed")
              error := none
              data := some { recipients := to_emails
                             cc := some cc_emails
                             bcc := some bcc_emails
                             subject := subject
                             message_id := env.send.message_id
                             attachments_count := some attachments.length
                             demo_mode := some s.demo_mode }
              started_at := env.t0
              completed_at := env.t1
              duration := env.t1 - env.t0
              metadata := ⟨("email-notification"), ("1.0.0"), some env.host⟩ }
      else
        .ok { id := action_id
              status := ("failed")
              error := some env.send.error
              data := some { recipients := to_emails
                             cc := none
                             bcc := none
                             subject := subject
                             message_id := none
                             attachments_count := none
                             demo_mode := none }
              started_at := env.t0
              completed_at := env.t1
              duration := env.t1 - env.t0
              metadata := ⟨("email-notification"), ("1.0.0"), some env.host⟩ }
  else
    match req.id with
    | none => .error keyErrorId
    | some i =>
      .ok (mkErrorResult EmailData ("email-notification") i ("Plugin is not running") env.t0 env.t1)

/-! ### Command dispatcher (`main` of `shell_command.py`, lines 456-518)

One iteration reads a line, parses it as JSON, and routes on the `action`
field. A line is modelled by what `json.loads` yields on it: either a
`JSONDecodeError` (`badJson`) or a command object with its optional `action`
string, `config` mapping and `action_request` mapping. The loop body's outer
`try` converts any escaping exception into a `Plugin error` response.
-/

/-- The parse of one input line. -/
inductive CmdLine
  | badJson
  | obj (action : Option String) (config : Option ShellConfig)
        (action_request : Option (ActionRequest ShellParams))
deriving DecidableEq

/-- The `data` payload of a successful dispatch response. -/
inductive RespData
  | infoData
  | statusData (status : String)
  | healthData (h : ShellHealth)
  | resultData (r : ActionResult ShellData)
  | configData
deriving DecidableEq

/-- One JSON response line: either the bare `error`-only object (malformed
input or uncaught exception) or the `action`/`success`/`data`/`error` object. -/
inductive Response
  | protoError (error : String)
  | act (action : Option String) (success : Bool) (data : Option RespData) (error : Option String)
deriving DecidableEq

/-- Python `f"Unknown action: {action}"` interpolation of the `action` value
(`None` when the key is absent). -/
def actionName : Option String → String
  | some a => a
  | none => ("None")

/-- One iteration of the dispatcher loop: the response printed for the line
and the plugin state afterwards. An uncaught exception from a handler (the
`KeyError` of `execute_action`) is converted by the outer `try` into a
`Plugin error` response. -/
def shellProcessLine (s : ShellState) (l : CmdLine) (env : ShellEnv) : Response × ShellState :=
  match l with
  | .badJson => (.protoError ("Invalid JSON command"), s)
  | .obj act cfg areq =>
    if act = some ("get_info") then (.act act true (some .infoData) none, s)
    else if act = some ("initialize") then
      let r := shellInitializeCfg s (cfg.getD ⟨none, none, none, none, none⟩)
      (.act act r.1 none none, r.2)
    else if act = some ("start") then
      let r := shellStart env.t0 s
      (.act act r.1 none none, r.2)
    else if act = some ("stop") then
      let r := shellStop s
      (.act act r.1 none none, r.2)
    else if act = some ("get_status") then (.act act true (some (.statusData s.status)) none, s)
    else if act = some ("get_health") then
      (.act act true (some (.healthData (shellGetHealth s env.t0))) none, s)
    else if act = some ("execute_action") then
      match shellExecuteAction s (areq.getD defaultShellRequest) env with
      | .ok r => (.act act true (some (.resultData r)) none, s)
      | .error m => (.protoError (("Plugin error: ") ++ m), s)
    else if act = some ("get_action_config") then (.act act true (some .configData) none, s)
    else (.act act false none (some (("Unknown action: ") ++ actionName act)), s)

/-- The dispatcher loop over the input lines before end-of-input: one response
per line, threading the plugin state; no line ever terminates the loop. -/
def shellRun : ShellState → List (CmdLine × ShellEnv) → List Response
  | _, [] => []
  | s, (l, env) :: rest =>
    let r := shellProcessLine s l env
    r.1 :: shellRun r.2 rest

/-- The action names the shell dispatcher recognizes (its `if`/`elif` table). -/
def shellActions : List String :=
  [("get_info"), ("initialize"), ("start"), ("stop"), ("get_status"),
   ("get_health"), ("execute_action"), ("get_action_config")]

/-! ### Helper lemmas -/

theorem lookupT_tset_self (t : CooldownTable) (k : String) (v : Int) :
    lookupT (tset k v t) k = some v := by
  simp [tset, lookupT]

theorem lookupT_tset_ne (t : CooldownTable) (k k2 : String) (v : Int) (h : k2 ≠ k) :
    lookupT (tset k v t) k2 = lookupT t k2 := by
  simp [tset, lookupT, h]

theorem diskEventKey_mk (fs : Filesystem) (lvl : String) (thr now : Int) :
    diskEventKey (mkDiskEvent fs lvl thr now) = fs.mountpoint ++ ("_") ++ lvl := rfl

theorem memEventKey_mk (s : MemState) (info : MemInfo) (a : String) (now : Int) :
    memEventKey (mkMemEvent s info a now) = a := by
  unfold mkMemEvent memEventKey
  split_ifs <;> rfl

/-- Every emission of the disk scan loop passed the cooldown check for the
emitted key against the pre-call table, and the post state records `now` under
exactly that key. -/
theorem diskScan_emits (s : DiskState) (now : Int) :
    ∀ (l : List Filesystem) (e : DiskEvent) (s2 : DiskState),
      diskScan s now l = (some e, s2) →
      shouldAlert s.last_alert_time s.alert_cooldown (diskEventKey e) now = true ∧
      s2 = { s with last_alert_time := tset (diskEventKey e) now s.last_alert_time } := by
  intro l
  induction l with
  | nil =>
    intro e s2 h
    simp [diskScan] at h
  | cons fs rest ih =>
    intro e s2 h
    simp only [diskScan] at h
    split_ifs at h with h1 h2 h3 h4
    · obtain ⟨he, hs⟩ := Prod.mk.injEq .. ▸ h
      obtain rfl := (Option.some.injEq ..).mp he
      exact ⟨by simpa [diskEventKey_mk] using h2, by simp [diskEventKey_mk, hs.symm]⟩
    · exact ih e s2 h
    · obtain ⟨he, hs⟩ := Prod.mk.injEq .. ▸ h
      obtain rfl := (Option.some.injEq ..).mp he
      exact ⟨by simpa [diskEventKey_mk] using h4, by simp [diskEventKey_mk, hs.symm]⟩
    · exact ih e s2 h
    · exact ih e s2 h

/-- Every emission of `detect_triggers` (disk) comes from the scan loop with
the running flag set. -/
theorem diskDetect_emits (s : DiskState) (info : List Filesystem) (now : Int)
    (e : DiskEvent) (s2 : DiskState) (h : diskDetect s info now = (some e, s2)) :
    shouldAlert s.last_alert_time s.alert_cooldown (diskEventKey e) now = true ∧
    s2 = { s with last_alert_time := tset (diskEventKey e) now s.last_alert_time } := by
  unfold diskDetect at h
  split_ifs at h with hr
  · exact diskScan_emits s now info e s2 h
  · simp at h

/-- Every emission of `detect_triggers` (memory) passed the cooldown check for
the emitted key, and the post state records `now` under exactly that key. -/
theorem memDetect_emits (s : MemState) (info : MemInfo) (now : Int)
    (e : MemEvent) (s2 : MemState) (h : memDetect s info now = (some e, s2)) :
    shouldAlert s.last_alert_time s.alert_cooldown (memEventKey e) now = true ∧
    s2 = { s with last_alert_time := tset (memEventKey e) now s.last_alert_time } := by
  simp only [memDetect] at h
  split_ifs at h with h1 h2 h3 h4 h5 h6 h7
  · rw [Prod.mk.injEq, Option.some.injEq] at h
    obtain ⟨he, hs⟩ := h
    subst he
    subst hs
    rw [memEventKey_mk]
    exact ⟨h3, rfl⟩
  · rw [Prod.mk.injEq, Option.some.injEq] at h
    obtain ⟨he, hs⟩ := h
    subst he
    subst hs
    rw [memEventKey_mk]
    exact ⟨h5, rfl⟩
  · simp at h
  · simp at h
  · rw [Prod.mk.injEq, Option.some.injEq] at h
    obtain ⟨he, hs⟩ := h
    subst he
    subst hs
    rw [memEventKey_mk]
    exact ⟨h7, rfl⟩
  · simp at h
  · simp at h
  · simp at h

/-- A request without the `"id"` key makes the shell executor raise
`KeyError('id')` on every state. -/
theorem shellExec_missing_id (s : ShellState) (req : ActionRequest ShellParams)
    (env : ShellEnv) (h : req.id = none) :
    shellExecuteAction s req env = .error keyErrorId := by
  unfold shellExecuteAction
  rw [h]
  split_ifs <;> rfl

/-- A request without the `"id"` key makes the email executor raise
`KeyError('id')` on every state. -/
theorem emailExec_missing_id (s : EmailState) (req : ActionRequest EmailParams)
    (env : EmailEnv) (h : req.id = none) :
    emailExecuteAction s req env = .error keyErrorId := by
  unfold emailExecuteAction
  rw [h]
  split_ifs <;> rfl

/-! ### Claim theorems -/

/-- A configuration whose threshold 150 is out of range, rejected by the disk
monitor's `initialize`. -/
def cfgBadD : DiskConfig := ⟨some 150, none, none, none, none, none⟩

/-- The disk monitor state after a fresh instance ran `initialize(cfgBadD)`:
the lifecycle state is `"error"`. -/
def sErrD : DiskState := (diskInitializeCfg diskInit cfgBadD).2

/-- C2 counterexample: on the disk monitor in state `"error"` (running flag
clear, reached by a rejected `initialize` on a fresh instance), `start()` moves
the state to `"running"` and `stop()` moves it to `"stopped"` — the claim that
only a fresh `initialize` leaves `"error"` is false on the code. -/
theorem c2_counterexample :
    sErrD.status = ("error") ∧ sErrD.running = false ∧
    (diskStart 0 sErrD).2.status = ("running") ∧
    (diskStop sErrD).2.status = ("stopped") := by
  decide

/-- C2 (amended): a disk monitor instance in state `"error"` stays in
`"error"` under `start()` only while its running flag is still set; with the
flag clear, `start()` moves it to `"running"`, and `stop()` always moves it to
`"stopped"` — so `start` and `stop` also leave the error state, not only
`initialize`. -/
theorem c2_error_exit (s : DiskState) (now : Int) (h : s.status = ("error")) :
    ((diskStart now s).2.status = if s.running then ("error") else ("running")) ∧
    (diskStop s).2.status = ("stopped") := by
  constructor
  · by_cases hr : s.running
    · simp [diskStart, hr, h]
    · simp [diskStart, hr]
  · rfl

/-- C2 witness: the amended statement evaluated on the concrete rejected-then-
started instance. -/
theorem c2_witness :
    sErrD.status = ("error") ∧
    ((diskStart 0 sErrD).2.status = if sErrD.running then ("error") else ("running")) ∧
    (diskStop sErrD).2.status = ("stopped") := by
  have h : sErrD.status = ("error") := by decide
  exact ⟨h, c2_error_exit sErrD 0 h⟩

/-- C3 counterexample: the rejected config `{threshold: 150}` fails
`initialize` and sets state `"error"`, but the stored config mapping and the
threshold field do not keep their prior accepted values — the threshold is
left at the rejected 150 (was 85) and the config mapping is replaced. -/
theorem c3_counterexample :
    (diskInitializeCfg diskInit cfgBadD).1 = false ∧
    (diskInitializeCfg diskInit cfgBadD).2.status = ("error") ∧
    diskInit.threshold = 85 ∧
    (diskInitializeCfg diskInit cfgBadD).2.threshold = 150 ∧
    diskInit.config ≠ (diskInitializeCfg diskInit cfgBadD).2.config := by
  decide

/-- C3 (amended): on both monitor plugins a rejected configuration makes
`initialize` return failure with state `"error"`, but the assignments executed
before the failing check persist: the post state is exactly the assignment
prefix of the new config with status `"error"` — config-derived fields hold
the new, rejected values, not the previously accepted ones. -/
theorem c3_failed_init_mutates :
    (∀ (s : DiskState) (c : DiskConfig), (diskInitializeCfg s c).1 = false →
        (diskInitializeCfg s c).2 = { diskAssign s c with status := ("error") }) ∧
    (∀ (s : MemState) (c : MemConfig), (memInitializeCfg s c).1 = false →
        (memInitializeCfg s c).2 = { memAssign s c with status := ("error") }) := by
  constructor
  · intro s c h
    simp only [diskInitializeCfg] at h ⊢
    split_ifs at h ⊢ <;> simp_all
  · intro s c h
    simp only [memInitializeCfg] at h ⊢
    split_ifs at h ⊢ <;> simp_all

/-- The memory-monitor analogue of the rejected configuration. -/
def cfgBadM : MemConfig := ⟨some 150, none, none, none⟩

/-- C3 witness: the amended statement evaluated on concrete rejected configs
for both monitor plugins. -/
theorem c3_witness :
    (diskInitializeCfg diskInit cfgBadD).1 = false ∧
    (diskInitializeCfg diskInit cfgBadD).2 = { diskAssign diskInit cfgBadD with status := ("error") } ∧
    (memInitializeCfg memInit cfgBadM).1 = false ∧
    (memInitializeCfg memInit cfgBadM).2 = { memAssign memInit cfgBadM with status := ("error") } := by
  have h1 : (diskInitializeCfg diskInit cfgBadD).1 = false := by decide
  have h2 : (memInitializeCfg memInit cfgBadM).1 = false := by decide
  exact ⟨h1, c3_failed_init_mutates.1 diskInit cfgBadD h1, h2,
         c3_failed_init_mutates.2 memInit cfgBadM h2⟩

/-- C6: whenever the parsed threshold is at least the parsed critical
threshold, the disk monitor's `initialize` returns failure and the state
becomes `"error"` (whichever validation check fires first). -/
theorem c6_threshold_ordering (s : DiskState) (c : DiskConfig)
    (h : (diskAssign s c).threshold ≥ (diskAssign s c).critical_threshold) :
    (diskInitializeCfg s c).1 = false ∧ (diskInitializeCfg s c).2.status = ("error") := by
  simp only [diskInitializeCfg]
  split_ifs <;> simp_all

/-- A config with equal thresholds (85, 85), in range but mis-ordered. -/
def cfgEqD : DiskConfig := ⟨some 85, some 85, none, none, none, none⟩

/-- C6 witness: the ordering violation evaluated on the concrete config with
`threshold = critical_threshold = 85`. -/
theorem c6_witness :
    (diskAssign diskInit cfgEqD).threshold ≥ (diskAssign diskInit cfgEqD).critical_threshold ∧
    (diskInitializeCfg diskInit cfgEqD).1 = false ∧
    (diskInitializeCfg diskInit cfgEqD).2.status = ("error") := by
  have h : (diskAssign diskInit cfgEqD).threshold ≥ (diskAssign diskInit cfgEqD).critical_threshold := by
    decide
  exact ⟨h, c6_threshold_ordering diskInit cfgEqD h⟩

/-- C4: on both monitor plugins, once `detect()` emits an event for an alert
key at time `now`, any later `detect()` call less than `cooldown_seconds`
after it emits no event for that same key (whatever the metric snapshot; a
different key may still be emitted), and the suppression of a recorded key
ends exactly when the elapsed time reaches the cooldown (`_should_alert`
returns true again). -/
theorem c4_cooldown_suppression :
    (∀ (s s2 s3 : DiskState) (info info2 : List Filesystem) (now now2 : Int)
       (e e2 : DiskEvent),
       diskDetect s info now = (some e, s2) →
       now2 - now < s.alert_cooldown →
       diskDetect s2 info2 now2 = (some e2, s3) →
       diskEventKey e2 ≠ diskEventKey e) ∧
    (∀ (s s2 s3 : MemState) (info info2 : MemInfo) (now now2 : Int)
       (e e2 : MemEvent),
       memDetect s info now = (some e, s2) →
       now2 - now < s.alert_cooldown →
       memDetect s2 info2 now2 = (some e2, s3) →
       memEventKey e2 ≠ memEventKey e) ∧
    (∀ (tbl : CooldownTable) (cd : Int) (k : String) (now now2 : Int),
       cd ≤ now2 - now →
       shouldAlert (tset k now tbl) cd k now2 = true) := by
  refine ⟨?_, ?_, ?_⟩
  · intro s s2 s3 info info2 now now2 e e2 h1 hlt h2 keq
    obtain ⟨_, hs2⟩ := diskDetect_emits s info now e s2 h1
    obtain ⟨ha2, _⟩ := diskDetect_emits s2 info2 now2 e2 s3 h2
    rw [keq] at ha2
    subst hs2
    simp only [shouldAlert, lookupT_tset_self, decide_eq_true_eq] at ha2
    omega
  · intro s s2 s3 info info2 now now2 e e2 h1 hlt h2 keq
    obtain ⟨_, hs2⟩ := memDetect_emits s info now e s2 h1
    obtain ⟨ha2, _⟩ := memDetect_emits s2 info2 now2 e2 s3 h2
    rw [keq] at ha2
    subst hs2
    simp only [shouldAlert, lookupT_tset_self, decide_eq_true_eq] at ha2
    omega
  · intro tbl cd k now now2 h
    simp only [shouldAlert, lookupT_tset_self, decide_eq_true_eq]
    exact h

/-- A valid disk monitor config: thresholds 85/95, ten-minute cooldown. -/
def cfgOKD : DiskConfig := ⟨some 85, some 95, some 300, some 600, none, none⟩

/-- The disk monitor initialized with `cfgOKD` and started at time 0. -/
def sRunD : DiskState := (diskStart 0 (diskInitializeCfg diskInit cfgOKD).2).2

/-- A root filesystem snapshot at 97% usage. -/
def fsRoot : Filesystem := ⟨("/dev/sda1"), ("/"), ("ext4"), 100, 97, 3, 97, 100, 97, 3⟩

/-- A `/var` filesystem snapshot at 97% usage. -/
def fsVar : Filesystem := ⟨("/dev/sda2"), ("/var"), ("ext4"), 100, 97, 3, 97, 100, 97, 3⟩

/-- The critical event emitted for `fsRoot` at time 100. -/
def evRoot : DiskEvent := mkDiskEvent fsRoot ("critical") 95 100

/-- The state after the first emission. -/
def sAfter1 : DiskState := (diskDetect sRunD [fsRoot] 100).2

/-- The critical event emitted for `fsVar` at time 200 while `fsRoot` is
suppressed. -/
def evVar : DiskEvent := mkDiskEvent fsVar ("critical") 95 200

/-- The state after the second emission. -/
def sAfter2 : DiskState := (diskDetect sAfter1 [fsRoot, fsVar] 200).2

/-- C4 witness: a concrete run — `/` alerts critical at time 100; a second
poll at time 200 (inside the 600 s cooldown) with both `/` and `/var` over
threshold emits only for `/var`, a different key; and a recorded key is
allowed again once the cooldown has fully elapsed. -/
theorem c4_witness :
    diskDetect sRunD [fsRoot] 100 = (some evRoot, sAfter1) ∧
    (200 : Int) - 100 < sRunD.alert_cooldown ∧
    diskDetect sAfter1 [fsRoot, fsVar] 200 = (some evVar, sAfter2) ∧
    diskEventKey evVar ≠ diskEventKey evRoot ∧
    shouldAlert (tset ("k") 100 []) 600 ("k") 700 = true := by
  have h1 : diskDetect sRunD [fsRoot] 100 = (some evRoot, sAfter1) := by decide
  have hlt : (200 : Int) - 100 < sRunD.alert_cooldown := by decide
  have h2 : diskDetect sAfter1 [fsRoot, fsVar] 200 = (some evVar, sAfter2) := by decide
  exact ⟨h1, hlt, h2,
         c4_cooldown_suppression.1 sRunD sAfter1 sAfter2 [fsRoot] [fsRoot, fsVar]
           100 200 evRoot evVar h1 hlt h2,
         c4_cooldown_suppression.2.2 [] 600 ("k") 100 700 (by decide)⟩

/-- C5: on both monitor plugins a `detect()` call emits at most one event per
call (the return type of the scan is a single optional event, the loop stops
at the first emission), and on emission the current time is recorded in the
cooldown table under exactly the emitted event's alert key while every other
key's entry reads unchanged. -/
theorem c5_single_emission :
    (∀ (s s2 : DiskState) (info : List Filesystem) (now : Int) (e : DiskEvent),
       diskDetect s info now = (some e, s2) →
       lookupT s2.last_alert_time (diskEventKey e) = some now ∧
       ∀ k, k ≠ diskEventKey e →
         lookupT s2.last_alert_time k = lookupT s.last_alert_time k) ∧
    (∀ (s s2 : MemState) (info : MemInfo) (now : Int) (e : MemEvent),
       memDetect s info now = (some e, s2) →
       lookupT s2.last_alert_time (memEventKey e) = some now ∧
       ∀ k, k ≠ memEventKey e →
         lookupT s2.last_alert_time k = lookupT s.last_alert_time k) := by
  constructor
  · intro s s2 info now e h
    obtain ⟨_, hs2⟩ := diskDetect_emits s info now e s2 h
    subst hs2
    exact ⟨lookupT_tset_self _ _ _, fun k hk => lookupT_tset_ne _ _ _ _ hk⟩
  · intro s s2 info now e h
    obtain ⟨_, hs2⟩ := memDetect_emits s info now e s2 h
    subst hs2
    exact ⟨lookupT_tset_self _ _ _, fun k hk => lookupT_tset_ne _ _ _ _ hk⟩

/-- A memory snapshot with RAM at 97%. -/
def memHot : MemInfo := ⟨97, 100, 3, 97, 10, 100, 10, 90⟩

/-- The memory monitor started at time 0 with its default thresholds. -/
def sRunM : MemState := (memStart 0 (memInitializeCfg memInit ⟨none, none, none, none⟩).2).2

/-- The memory event emitted for `memHot` at time 50. -/
def evMem : MemEvent := mkMemEvent sRunM memHot ("memory") 50

/-- The memory monitor state after that emission. -/
def sAfterM : MemState := (memDetect sRunM memHot 50).2

/-- C5 witness: both conjuncts evaluated on concrete emissions — the disk
event for `/` records time 100 under `"/_critical"` leaving key `"swap"`
unchanged, and the memory event records time 50 under `"memory"` leaving key
`"other"` unchanged. -/
theorem c5_witness :
    diskDetect sRunD [fsRoot] 100 = (some evRoot, sAfter1) ∧
    lookupT sAfter1.last_alert_time (diskEventKey evRoot) = some 100 ∧
    lookupT sAfter1.last_alert_time ("swap") = lookupT sRunD.last_alert_time ("swap") ∧
    memDetect sRunM memHot 50 = (some evMem, sAfterM) ∧
    lookupT sAfterM.last_alert_time (memEventKey evMem) = some 50 ∧
    lookupT sAfterM.last_alert_time ("other") = lookupT sRunM.last_alert_time ("other") := by
  have h1 : diskDetect sRunD [fsRoot] 100 = (some evRoot, sAfter1) := by decide
  have h2 : memDetect sRunM memHot 50 = (some evMem, sAfterM) := by decide
  have r1 := c5_single_emission.1 sRunD sAfter1 [fsRoot] 100 evRoot h1
  have r2 := c5_single_emission.2 sRunM sAfterM memHot 50 evMem h2
  exact ⟨h1, r1.1, r1.2 ("swap") (by decide), h2, r2.1, r2.2 ("other") (by decide)⟩

/-- A reachable disk monitor state with status `"error"` while the running
flag is still set: initialize, start, then a rejected re-initialize. -/
def sHealthBug : DiskState :=
  (diskInitializeCfg (diskStart 5 (diskInitializeCfg diskInit cfgOKD).2).2 cfgBadD).2

/-- C9 counterexample: a reachable state (initialize → start → rejected
re-initialize) whose lifecycle state is `"error"`, yet `get_health` reports
`"healthy"` — health tracks the `running` flag, which is not cleared by a
failed re-initialize, so "healthy iff state is running" is false on the
code. -/
theorem c9_counterexample :
    DiskReach sHealthBug ∧
    sHealthBug.status = ("error") ∧
    sHealthBug.running = true ∧
    (diskGetHealth sHealthBug [] 7).status = ("healthy") := by
  refine ⟨?_, by decide, by decide, by decide⟩
  exact DiskReach.step_initialize _ cfgBadD
    (DiskReach.step_start _ 5 (DiskReach.step_initialize _ cfgOKD DiskReach.init))

/-- C9 (amended): `get_health` is a pure read (it takes the state and returns
a report without modifying anything) and reports `"healthy"` exactly when the
internal `running` flag is set; the flag coincides with lifecycle status
`"running"` except after `initialize` is invoked on a running instance, where
the status changes but the flag stays set. Stated for the disk monitor and
the shell plugin, the two cited implementations. -/
theorem c9_health_running_flag :
    (∀ (s : DiskState) (info : List Filesystem) (now : Int),
       ((diskGetHealth s info now).status = ("healthy")) ↔ s.running = true) ∧
    (∀ (s : ShellState) (now : Int),
       ((shellGetHealth s now).status = ("healthy")) ↔ s.running = true) := by
  constructor
  · intro s info now
    by_cases hr : s.running <;> simp [diskGetHealth, hr]
  · intro s now
    by_cases hr : s.running <;> simp [shellGetHealth, hr]

/-- The shell plugin initialized with an empty config and started at time 0. -/
def sRunShell : ShellState :=
  (shellStart 0 (shellInitializeCfg (shellInit true) ⟨none, none, none, none, none⟩).2).2

/-- A request running the permitted command `ls`. -/
def reqLs : ActionRequest ShellParams := ⟨some ("a1"), some ⟨some ("ls"), none, none, none, none⟩⟩

/-- An environment whose Action Source outcome is a failed execution with
captured partial output. -/
def envFail : ShellEnv := ⟨0, 1, ("host1"), ⟨false, some 1, some ("out"), some ("boom"), some 1, ("boom")⟩⟩

/-- C1 counterexample: a failed execution outcome yields an `ActionResult`
with terminal status `"failed"` that carries BOTH an `error` and a `data`
mapping (command, return code, stdout, stderr) — `data` and `error` are not
mutually exclusive on terminal status. -/
theorem c1_counterexample :
    (shellExecuteAction sRunShell reqLs envFail).toOption.map
      (fun r => (r.status, r.error.isSome, r.data.isSome)) = some (("failed"), true, true) := by
  decide

/-- C1 (amended): every `ActionResult` returned by `execute_action` of either
action plugin has terminal status `"completed"` or `"failed"`; a completed
result carries `data` and no `error`; a failed result always carries an
`error` but may also carry partial `data` (it does whenever the Action Source
reported failure: return code/stdout/stderr on the shell plugin, recipients
and subject on the email plugin). -/
theorem c1_terminal_status :
    (∀ (s : ShellState) (req : ActionRequest ShellParams) (env : ShellEnv)
       (r : ActionResult ShellData),
       shellExecuteAction s req env = .ok r →
       (r.status = ("completed") ∨ r.status = ("failed")) ∧
       (r.status = ("completed") → r.error = none ∧ r.data.isSome = true) ∧
       (r.status = ("failed") → r.error.isSome = true)) ∧
    (∀ (s : EmailState) (req : ActionRequest EmailParams) (env : EmailEnv)
       (r : ActionResult EmailData),
       emailExecuteAction s req env = .ok r →
       (r.status = ("completed") ∨ r.status = ("failed")) ∧
       (r.status = ("completed") → r.error = none ∧ r.data.isSome = true) ∧
       (r.status = ("failed") → r.error.isSome = true)) := by
  constructor
  · intro s req env r h
    unfold shellExecuteAction at h
    by_cases hr : s.running
    · rw [if_pos hr] at h
      cases hid : req.id with
      | none => rw [hid] at h; simp at h
      | some aid =>
        rw [hid] at h
        dsimp only at h
        by_cases hc : (req.parameters.getD defaultShellParams).command.getD ("") = ("")
        · rw [if_pos hc] at h
          injection h with h2
          subst h2
          simp [mkErrorResult]
        · rw [if_neg hc] at h
          cases hv : validateCommand s ((req.parameters.getD defaultShellParams).command.getD (""))
              ((req.parameters.getD defaultShellParams).working_dir.getD ("/tmp")) with
          | invalid e =>
            rw [hv] at h
            injection h with h2
            subst h2
            simp [mkErrorResult]
          | valid =>
            rw [hv] at h
            by_cases hs : env.exec.success
            · rw [if_pos hs] at h
              injection h with h2
              subst h2
              simp
            · rw [if_neg hs] at h
              injection h with h2
              subst h2
              simp
    · rw [if_neg hr] at h
      cases hid : req.id with
      | none => rw [hid] at h; simp at h
      | some aid =>
        rw [hid] at h
        dsimp only at h
        injection h with h2
        subst h2
        simp [mkErrorResult]
  · intro s req env r h
    unfold emailExecuteAction at h
    by_cases hr : s.running
    · rw [if_pos hr] at h
      cases hid : req.id with
      | none => rw [hid] at h; simp at h
      | some aid =>
        rw [hid] at h
        dsimp only at h
        by_cases hc : (req.parameters.getD defaultEmailParams).to_emails.getD [] = []
        · rw [if_pos hc] at h
          injection h with h2
          subst h2
          simp [mkErrorResult]
        · rw [if_neg hc] at h
          by_cases hs : env.send.success
          · rw [if_pos hs] at h
            injection h with h2
            subst h2
            simp
          · rw [if_neg hs] at h
            injection h with h2
            subst h2
            simp
    · rw [if_neg hr] at h
      cases hid : req.id with
      | none => rw [hid] at h; simp at h
      | some aid =>
        rw [hid] at h
        dsimp only at h
        injection h with h2
        subst h2
        simp [mkErrorResult]

/-- The failed shell result of the counterexample run. -/
def resShellFail : ActionResult ShellData :=
  (shellExecuteAction sRunShell reqLs envFail).toOption.getD
    (mkErrorResult ShellData ("x") ("x") ("x") 0 0)

/-- The email plugin initialized (demo mode) and started at time 0. -/
def sRunEmail : EmailState :=
  (emailStart 0 (emailInitializeCfg (emailInit true) ⟨none, none, none, none, none, none⟩).2).2

/-- A well-formed email request with one recipient. -/
def reqEmail : ActionRequest EmailParams :=
  ⟨some ("e1"), some ⟨some [("ops@example.com")], none, none, none, none, none, none⟩⟩

/-- An environment whose email Action Source outcome is a successful send. -/
def envSendOK : EmailEnv := ⟨0, 1, ("host1"), ⟨true, some ("mid-1"), ("")⟩⟩

/-- The completed email result of that run. -/
def resEmailOK : ActionResult EmailData :=
  (emailExecuteAction sRunEmail reqEmail envSendOK).toOption.getD
    (mkErrorResult EmailData ("x") ("x") ("x") 0 0)

/-- C1 witness: the amended statement evaluated on a concrete failed shell
execution and a concrete completed email send. -/
theorem c1_witness :
    shellExecuteAction sRunShell reqLs envFail = .ok resShellFail ∧
    (resShellFail.status = ("completed") ∨ resShellFail.status = ("failed")) ∧
    (resShellFail.status = ("failed") → resShellFail.error.isSome = true) ∧
    emailExecuteAction sRunEmail reqEmail envSendOK = .ok resEmailOK ∧
    (resEmailOK.status = ("completed") → resEmailOK.error = none ∧ resEmailOK.data.isSome = true) := by
  have h1 : shellExecuteAction sRunShell reqLs envFail = .ok resShellFail := by decide
  have h2 : emailExecuteAction sRunEmail reqEmail envSendOK = .ok resEmailOK := by decide
  have r1 := c1_terminal_status.1 sRunShell reqLs envFail resShellFail h1
  have r2 := c1_terminal_status.2 sRunEmail reqEmail envSendOK resEmailOK h2
  exact ⟨h1, r1.1, r1.2.2, h2, r2.2.1⟩

/-- Processing an `execute_action` line whose request lacks `"id"` yields the
`Plugin error` response from the loop's outer exception handler, leaves the
state unchanged, and the loop continues with the remaining lines. -/
theorem shellRun_missing_id (s : ShellState) (env : ShellEnv) (cfg : Option ShellConfig)
    (areq : Option (ActionRequest ShellParams)) (rest : List (CmdLine × ShellEnv))
    (hid : (areq.getD defaultShellRequest).id = none) :
    shellRun s ((CmdLine.obj (some ("execute_action")) cfg areq, env) :: rest) =
      .protoError (("Plugin error: ") ++ keyErrorId) :: shellRun s rest := by
  have hex : shellExecuteAction s (areq.getD defaultShellRequest) env = .error keyErrorId :=
    shellExec_missing_id _ _ _ hid
  have hpl : shellProcessLine s (.obj (some ("execute_action")) cfg areq) env =
      (.protoError (("Plugin error: ") ++ keyErrorId), s) := by
    simp [shellProcessLine, hex]
  simp [shellRun, hpl]

/-- C7: on a running shell plugin, whenever `_validate_command` rejects the
request's command (blocked executable, missing from a configured allow-list,
disallowed working directory, or dangerous substring), `execute_action`
returns the failed `ActionResult` carrying that rejection message, and the
Action Source is never consulted: the result is identical for any two
environments that agree on the clock and host but differ arbitrarily in the
execution outcome. -/
theorem c7_validation_rejection (s : ShellState) (req : ActionRequest ShellParams)
    (env env2 : ShellEnv) (aid msg : String)
    (hr : s.running = true)
    (hid : req.id = some aid)
    (hc : (req.parameters.getD defaultShellParams).command.getD ("") ≠ (""))
    (hval : validateCommand s ((req.parameters.getD defaultShellParams).command.getD (""))
              ((req.parameters.getD defaultShellParams).working_dir.getD ("/tmp")) = .invalid msg)
    (ht0 : env.t0 = env2.t0) (ht1 : env.t1 = env2.t1) (_hh : env.host = env2.host) :
    shellExecuteAction s req env =
      .ok (mkErrorResult ShellData ("shell-command") aid msg env.t0 env.t1) ∧
    (mkErrorResult ShellData ("shell-command") aid msg env.t0 env.t1).status = ("failed") ∧
    (mkErrorResult ShellData ("shell-command") aid msg env.t0 env.t1).error = some msg ∧
    shellExecuteAction s req env = shellExecuteAction s req env2 := by
  have key : ∀ e : ShellEnv, shellExecuteAction s req e =
      .ok (mkErrorResult ShellData ("shell-command") aid msg e.t0 e.t1) := by
    intro e
    unfold shellExecuteAction
    rw [if_pos hr, hid]
    dsimp only
    rw [if_neg hc, hval]
  refine ⟨key env, rfl, rfl, ?_⟩
  rw [key env, key env2, ht0, ht1]

/-- The spec's scenario request: `rm -rf /`. -/
def reqRmRf : ActionRequest ShellParams :=
  ⟨some ("a1"), some ⟨some ("rm -rf /"), none, none, none, none⟩⟩

/-- An environment whose Action Source outcome is a successful execution. -/
def envOK : ShellEnv := ⟨0, 1, ("host1"), ⟨true, some 0, some (""), some (""), some 0, ("")⟩⟩

/-- The rejection message for `rm -rf /` (its basename `rm` is in the blocked
set, which is checked before the dangerous-pattern scan). -/
def msgBlockedRm : String := ("Command \x27rm\x27 is blocked for security")

/-- C7 witness: the spec scenario evaluated — `rm -rf /` on the running shell
plugin is rejected with the blocked-command error, and success and failure
Action Source environments produce the identical failed result. -/
theorem c7_witness :
    sRunShell.running = true ∧
    validateCommand sRunShell ("rm -rf /") ("/tmp") = .invalid msgBlockedRm ∧
    shellExecuteAction sRunShell reqRmRf envOK =
      .ok (mkErrorResult ShellData ("shell-command") ("a1") msgBlockedRm 0 1) ∧
    shellExecuteAction sRunShell reqRmRf envOK = shellExecuteAction sRunShell reqRmRf envFail := by
  have hr : sRunShell.running = true := by decide
  have hid : reqRmRf.id = some ("a1") := rfl
  have hc : (reqRmRf.parameters.getD defaultShellParams).command.getD ("") ≠ ("") := by decide
  have hval : validateCommand sRunShell ((reqRmRf.parameters.getD defaultShellParams).command.getD (""))
      ((reqRmRf.parameters.getD defaultShellParams).working_dir.getD ("/tmp")) = .invalid msgBlockedRm := by
    decide
  have r := c7_validation_rejection sRunShell reqRmRf envOK envFail ("a1") msgBlockedRm
    hr hid hc hval rfl rfl rfl
  exact ⟨hr, by decide, r.1, r.2.2.2⟩

/-- C8: the dispatcher's error handling — a malformed-JSON line produces
exactly the bare `{"error": "Invalid JSON command"}` response, leaves the
state unchanged and the loop continues; an unrecognized action name produces
the `success: false` response with `Unknown action: <name>`; and a line whose
processing raises (the missing-`id` `KeyError` of `execute_action`) produces
the bare `Plugin error` response without terminating the loop. -/
theorem c8_dispatcher_errors :
    (∀ (s : ShellState) (env : ShellEnv) (rest : List (CmdLine × ShellEnv)),
       shellProcessLine s .badJson env = (.protoError ("Invalid JSON command"), s) ∧
       shellRun s ((CmdLine.badJson, env) :: rest) =
         .protoError ("Invalid JSON command") :: shellRun s rest) ∧
    (∀ (s : ShellState) (env : ShellEnv) (cfg : Option ShellConfig)
       (areq : Option (ActionRequest ShellParams)) (a : String),
       a ∉ shellActions →
       shellProcessLine s (.obj (some a) cfg areq) env =
         (.act (some a) false none (some (("Unknown action: ") ++ a)), s)) ∧
    (∀ (s : ShellState) (env : ShellEnv) (cfg : Option ShellConfig)
       (areq : Option (ActionRequest ShellParams)) (rest : List (CmdLine × ShellEnv)),
       (areq.getD defaultShellRequest).id = none →
       shellRun s ((CmdLine.obj (some ("execute_action")) cfg areq, env) :: rest) =
         .protoError ("Plugin error: \x27id\x27") :: shellRun s rest) := by
  refine ⟨fun s env rest => ⟨rfl, rfl⟩, ?_, ?_⟩
  · intro s env cfg areq a ha
    simp only [shellActions, List.mem_cons, List.not_mem_nil, or_false, not_or] at ha
    obtain ⟨h1, h2, h3, h4, h5, h6, h7, h8⟩ := ha
    simp [shellProcessLine, actionName, h1, h2, h3, h4, h5, h6, h7, h8]
  · intro s env cfg areq rest hid
    exact shellRun_missing_id s env cfg areq rest hid

/-- C8 witness: the three behaviours evaluated concretely — one malformed
line, the unrecognized action `"foo"`, and an `execute_action` line whose
request mapping is absent (so its `"id"` lookup raises). -/
theorem c8_witness :
    (shellProcessLine sRunShell .badJson envOK = (.protoError ("Invalid JSON command"), sRunShell)) ∧
    (("foo") ∉ shellActions ∧
     shellProcessLine sRunShell (.obj (some ("foo")) none none) envOK =
       (.act (some ("foo")) false none (some (("Unknown action: ") ++ ("foo"))), sRunShell)) ∧
    ((Option.getD (none : Option (ActionRequest ShellParams)) defaultShellRequest).id = none ∧
     shellRun sRunShell [(CmdLine.obj (some ("execute_action")) none none, envOK)] =
       [.protoError ("Plugin error: \x27id\x27")]) := by
  have hf : ("foo") ∉ shellActions := by decide
  have hn : (Option.getD (none : Option (ActionRequest ShellParams)) defaultShellRequest).id = none := rfl
  refine ⟨(c8_dispatcher_errors.1 sRunShell envOK []).1,
          ⟨hf, c8_dispatcher_errors.2.1 sRunShell envOK none none ("foo") hf⟩,
          ⟨hn, ?_⟩⟩
  have h := c8_dispatcher_errors.2.2 sRunShell envOK none none [] hn
  simpa using h

/-- C10: a request mapping without the `"id"` key makes `execute_action` of
either action plugin raise `KeyError('id')` — on every state, including the
not-running fail-fast path — so it never yields an `ActionResult`; at the
dispatcher the exception surfaces as the bare `{"error": "Plugin error: 'id'"}`
response and the loop continues. -/
theorem c10_missing_id :
    (∀ (s : ShellState) (req : ActionRequest ShellParams) (env : ShellEnv),
       req.id = none → shellExecuteAction s req env = .error keyErrorId) ∧
    (∀ (s : EmailState) (req : ActionRequest EmailParams) (env : EmailEnv),
       req.id = none → emailExecuteAction s req env = .error keyErrorId) ∧
    (∀ (s : ShellState) (env : ShellEnv) (cfg : Option ShellConfig)
       (areq : Option (ActionRequest ShellParams)) (rest : List (CmdLine × ShellEnv)),
       (areq.getD defaultShellRequest).id = none →
       shellRun s ((CmdLine.obj (some ("execute_action")) cfg areq, env) :: rest) =
         .protoError (("Plugin error: ") ++ keyErrorId) :: shellRun s rest) :=
  ⟨fun s req env h => shellExec_missing_id s req env h,
   fun s req env h => emailExec_missing_id s req env h,
   fun s env cfg areq rest hid => shellRun_missing_id s env cfg areq rest hid⟩

/-- C10 witness: the empty request (`action_request` defaulted to `{}`)
evaluated on both running plugins — a raised `KeyError('id')`, never a
result — and on one dispatcher line. -/
theorem c10_witness :
    shellExecuteAction sRunShell defaultShellRequest envOK = .error keyErrorId ∧
    emailExecuteAction sRunEmail defaultEmailRequest envSendOK = .error keyErrorId ∧
    shellRun sRunShell [(CmdLine.obj (some ("execute_action")) none (some defaultShellRequest), envOK)] =
      [.protoError (("Plugin error: ") ++ keyErrorId)] := by
  refine ⟨c10_missing_id.1 sRunShell defaultShellRequest envOK rfl,
          c10_missing_id.2.1 sRunEmail defaultEmailRequest envSendOK rfl, ?_⟩
  have h := c10_missing_id.2.2 sRunShell envOK none (some defaultShellRequest) [] rfl
  simpa using h
